import Mathlib

/-
Verification of the learnvectordb ingestion and vector-search core.

The Python source delegates distance computation, text ranking and SQL
semantics to PostgreSQL/pgvector.  The model below embeds the state the
SQL manipulates (the conversations table, its indexes) and the query
semantics (filter, order, limit) as executable Lean definitions; the
engine-supplied scalar functions (vector distance, full-text match and
rank) are passed in as function parameters, mirroring that the code
treats them as opaque.  Floating point is modelled by exact rationals.
-/

set_option maxRecDepth 40000

namespace VectordbLearn

/-- One row of the conversations table, as created by create_schema in
db/operations.py: id BIGSERIAL, username TEXT NOT NULL, session_content
TEXT NOT NULL, session_title TEXT, embedding vector(768). -/
structure Conversation where
  id : Nat
  username : String
  session_content : String
  session_title : Option String
  embedding : List ℚ
  deriving Repr, DecidableEq

/-- Kind of a pgvector similarity index (USING hnsw / USING ivfflat). -/
inductive IndexKind
  | hnsw
  | ivfflat
  deriving Repr, DecidableEq

/-- A named similarity index over the embedding column. -/
structure SimIndex where
  name : String
  kind : IndexKind
  deriving Repr, DecidableEq

/-- The database state visible to this component: the extension and
table existence flags, the similarity indexes on conversations, the
stored rows, and the next BIGSERIAL value. -/
structure DB where
  vectorExt : Bool
  tableExists : Bool
  indexes : List SimIndex
  rows : List Conversation
  nextId : Nat
  deriving Repr, DecidableEq

/-- A fresh PostgreSQL database: no extension, no table, serial at 1. -/
def DB.empty : DB := ⟨false, false, [], [], 1⟩

/-- Errors raised by the storage engine (asyncpg exceptions). -/
inductive StoreError
  | dimensionMismatch (expected got : Nat)
  | operandDimensionMismatch (a b : Nat)
  | undefinedTable
  | negativeLimit
  deriving Repr, DecidableEq

/-- Python type(e).__name__ for the modelled engine errors. -/
def StoreError.typeName : StoreError → String
  | .dimensionMismatch _ _ => "DataError"
  | .operandDimensionMismatch _ _ => "DataError"
  | .undefinedTable => "UndefinedTableError"
  | .negativeLimit => "InvalidRowCountInLimitClauseError"

/-- Python str(e) for the modelled engine errors. -/
def StoreError.message : StoreError → String
  | .dimensionMismatch expected got =>
      "expected " ++ toString expected ++ " dimensions, not " ++ toString got
  | .operandDimensionMismatch a b =>
      "different vector dimensions " ++ toString a ++ " and " ++ toString b
  | .undefinedTable => "relation conversations does not exist"
  | .negativeLimit => "LIMIT must not be negative"

/-- CREATE INDEX IF NOT EXISTS: append the index only when no index of
that name is present.  PostgreSQL deduplicates per name, not per kind. -/
def createIndexIfNotExists (db : DB) (idx : SimIndex) : DB :=
  if db.indexes.any (fun i => i.name == idx.name) then db
  else { db with indexes := db.indexes ++ [idx] }

/-- create_schema (db/operations.py lines 8-26): CREATE EXTENSION IF NOT
EXISTS vector; CREATE TABLE IF NOT EXISTS conversations; CREATE INDEX IF
NOT EXISTS idx_conversations_embedding USING hnsw. -/
def createSchema (db : DB) : DB :=
  createIndexIfNotExists
    { db with vectorExt := true, tableExists := true }
    ⟨"idx_conversations_embedding", IndexKind.hnsw⟩

/-- insert_conversation (db/operations.py lines 29-46): INSERT INTO
conversations RETURNING id.  The engine rejects the row when the table
is absent or the vector literal does not have the column dimension 768;
otherwise exactly one row is appended and its serial id returned.  Note
the schema has no constraint against empty content (TEXT NOT NULL only
excludes NULL). -/
def insertConversation (db : DB) (username content : String)
    (embedding : List ℚ) (title : Option String) :
    Except StoreError (DB × Nat) :=
  if db.tableExists = false then .error .undefinedTable
  else if embedding.length ≠ 768 then
    .error (.dimensionMismatch 768 embedding.length)
  else
    .ok ({ db with
            rows := db.rows ++
              [⟨db.nextId, username, content, title, embedding⟩],
            nextId := db.nextId + 1 },
         db.nextId)

/-- Comparison by a rational key: the ORDER BY ... ASC relation. -/
def keyLe {α : Type} (key : α → ℚ) (a b : α) : Prop := key a ≤ key b

instance {α : Type} (key : α → ℚ) : DecidableRel (keyLe key) :=
  fun a b => inferInstanceAs (Decidable (key a ≤ key b))

instance {α : Type} (key : α → ℚ) : IsTotal α (keyLe key) :=
  ⟨fun a b => le_total (key a) (key b)⟩

instance {α : Type} (key : α → ℚ) : IsTrans α (keyLe key) :=
  ⟨fun _ _ _ hab hbc => le_trans hab hbc⟩

/-- A result row of search_similar: SELECT id, username,
session_content, session_title, distance. -/
structure SearchRow where
  id : Nat
  username : String
  session_content : String
  session_title : Option String
  distance : ℚ
  deriving Repr, DecidableEq

/-- The SELECT projection of search_similar for one stored row. -/
def toSearchRow (dist : List ℚ → List ℚ → ℚ) (q : List ℚ)
    (r : Conversation) : SearchRow :=
  ⟨r.id, r.username, r.session_content, r.session_title, dist q r.embedding⟩

/-- search_similar (db/operations.py lines 49-67): SELECT ... ORDER BY
embedding distance-to-query ASC LIMIT limit.  The distance operator is
supplied by the engine and is passed in as dist.  A negative LIMIT is an
engine error; LIMIT 0 returns zero rows without error.  Evaluating the
distance operator on vectors of different dimensions is an engine
error. -/
def searchSimilar (dist : List ℚ → List ℚ → ℚ) (db : DB)
    (queryEmbedding : List ℚ) (limit : Int) :
    Except StoreError (List SearchRow) :=
  if limit < 0 then .error .negativeLimit
  else if db.tableExists = false then .error .undefinedTable
  else if db.rows.any (fun r => r.embedding.length != queryEmbedding.length)
  then .error (.operandDimensionMismatch queryEmbedding.length 768)
  else
    .ok (((List.insertionSort
            (keyLe (fun r => dist queryEmbedding r.embedding)) db.rows).map
          (toSearchRow dist queryEmbedding)).take limit.toNat)

/-- A result row of search_combined: the search_similar projection plus
the full-text rank column. -/
structure HybridRow where
  id : Nat
  username : String
  session_content : String
  session_title : Option String
  distance : ℚ
  rank : ℚ
  deriving Repr, DecidableEq

/-- The SELECT projection of search_combined for one stored row. -/
def toHybridRow (dist : List ℚ → List ℚ → ℚ) (tsRank : String → String → ℚ)
    (q : List ℚ) (searchText : String) (r : Conversation) : HybridRow :=
  ⟨r.id, r.username, r.session_content, r.session_title,
   dist q r.embedding, tsRank r.session_content searchText⟩

/-- The WHERE clause of search_combined: full-text match on the content,
OR vector distance below the hardcoded threshold 0.5. -/
def hybridQualifies (dist : List ℚ → List ℚ → ℚ)
    (tsMatch : String → String → Bool) (q : List ℚ) (searchText : String)
    (r : Conversation) : Bool :=
  tsMatch r.session_content searchText ||
    decide (dist q r.embedding < (1 / 2 : ℚ))

/-- The ORDER BY of search_combined: rank DESC, then distance ASC. -/
def hybridLe (rank dist : Conversation → ℚ) (a b : Conversation) : Prop :=
  rank b < rank a ∨ (rank a = rank b ∧ dist a ≤ dist b)

instance (rank dist : Conversation → ℚ) : DecidableRel (hybridLe rank dist) :=
  fun _ _ => inferInstanceAs (Decidable (_ ∨ _))

instance (rank dist : Conversation → ℚ) : IsTotal Conversation (hybridLe rank dist) := by
  constructor
  intro a b
  rcases lt_trichotomy (rank a) (rank b) with h | h | h
  · exact Or.inr (Or.inl h)
  · rcases le_total (dist a) (dist b) with hd | hd
    · exact Or.inl (Or.inr ⟨h, hd⟩)
    · exact Or.inr (Or.inr ⟨h.symm, hd⟩)
  · exact Or.inl (Or.inl h)

instance (rank dist : Conversation → ℚ) : IsTrans Conversation (hybridLe rank dist) := by
  constructor
  intro a b c hab hbc
  rcases hab with hab | ⟨hab1, hab2⟩
  · rcases hbc with hbc | ⟨hbc1, hbc2⟩
    · exact Or.inl (lt_trans hbc hab)
    · exact Or.inl (hbc1 ▸ hab)
  · rcases hbc with hbc | ⟨hbc1, hbc2⟩
    · exact Or.inl (lt_of_lt_of_le hbc hab1.symm.le)
    · exact Or.inr ⟨hab1.trans hbc1, le_trans hab2 hbc2⟩

/-- search_combined (db/operations.py lines 70-93): WHERE text-match OR
distance below 0.5, ORDER BY rank DESC then distance ASC, LIMIT limit.
The engine-computed full-text match, full-text rank and vector distance
are passed in as tsMatch, tsRank and dist. -/
def searchCombined (dist : List ℚ → List ℚ → ℚ)
    (tsMatch : String → String → Bool) (tsRank : String → String → ℚ)
    (db : DB) (q : List ℚ) (searchText : String) (limit : Int) :
    Except StoreError (List HybridRow) :=
  if limit < 0 then .error .negativeLimit
  else if db.tableExists = false then .error .undefinedTable
  else if db.rows.any (fun r => r.embedding.length != q.length) then
    .error (.operandDimensionMismatch q.length 768)
  else
    .ok (((List.insertionSort
            (hybridLe (fun r => tsRank r.session_content searchText)
                      (fun r => dist q r.embedding))
            (db.rows.filter (hybridQualifies dist tsMatch q searchText))).map
          (toHybridRow dist tsRank q searchText)).take limit.toNat)

/-- create_hnsw_index (db/operations.py lines 112-121): CREATE INDEX IF
NOT EXISTS idx_conversations_hnsw USING hnsw, then return a message.
CREATE INDEX on a missing table is an engine error. -/
def createHnswIndex (db : DB) (metric : String) :
    Except StoreError (DB × String) :=
  if db.tableExists = false then .error .undefinedTable
  else
    .ok (createIndexIfNotExists db ⟨"idx_conversations_hnsw", IndexKind.hnsw⟩,
         "HNSW index created with " ++ metric ++ " distance")

/-- create_ivfflat_index (db/operations.py lines 124-132): CREATE INDEX
IF NOT EXISTS idx_conversations_ivfflat USING ivfflat. -/
def createIvfflatIndex (db : DB) (lists : Nat) :
    Except StoreError (DB × String) :=
  if db.tableExists = false then .error .undefinedTable
  else
    .ok (createIndexIfNotExists db
           ⟨"idx_conversations_ivfflat", IndexKind.ivfflat⟩,
         "IVFFlat index created with " ++ toString lists ++ " lists")

/-- Number of similarity indexes of a given kind in an index list. -/
def countKind (idxs : List SimIndex) (k : IndexKind) : Nat :=
  (idxs.filter (fun i => i.kind == k)).length

/-- The query text sent by explain_query. -/
def explainSql (query : String) : String :=
  "EXPLAIN (ANALYZE, BUFFERS, FORMAT TEXT) " ++ query

/-- explain_query (db/operations.py lines 146-156): run EXPLAIN through
the engine (modelled by the run parameter, returning the plan lines or
an engine error) and join the lines; any error is caught and rendered as
a string instead of being re-raised. -/
def explainQuery (run : String → Except StoreError (List String))
    (query : String) : String :=
  match run (explainSql query) with
  | .ok rows => String.intercalate "\n" rows
  | .error e => "Error: " ++ e.typeName ++ ": " ++ e.message

/-- Failure of pool acquisition or of the probe query in
db/connection.py. -/
inductive ConnError
  | connectionFailed (msg : String)
  deriving Repr, DecidableEq

/-- test_connection (db/connection.py lines 35-43): acquire the pool,
run SELECT 1, return true; any exception from either step yields false.
The pool acquisition and the probe are passed in as fallible values. -/
def testConnection {Pool : Type} (getPool : Except ConnError Pool)
    (fetchval : Pool → Except ConnError Int) : Bool :=
  match getPool with
  | .error _ => false
  | .ok pool =>
    match fetchval pool with
    | .ok _ => true
    | .error _ => false

/-- Failure of the embedding provider (embedding/ollama.py raises
RuntimeError on any Ollama failure). -/
inductive ProviderError
  | embedFailed (msg : String)
  deriving Repr, DecidableEq

/-- One parsed source record of the ingestion pipeline: the tuple
(username, content, title) appended to the batch in db/ingest.py. -/
structure SourceRecord where
  username : String
  content : String
  title : Option String
  deriving Repr, DecidableEq

/-- One CSV data line as produced by csv.DictReader: field name to
value. -/
abbrev CsvRow := List (String × String)

/-- Dictionary field access on a CSV row. -/
def lookupField (row : CsvRow) (key : String) : Option String :=
  match row.find? (fun p => p.fst == key) with
  | some p => some p.snd
  | none => none

/-- An error halting the ingestion pipeline: a missing required CSV
field (Python KeyError), an embedding failure, or a store failure. -/
inductive IngestError
  | keyError (key : String)
  | provider (e : ProviderError)
  | store (e : StoreError)
  deriving Repr, DecidableEq

/-- Field extraction for one row in ingest_csv (db/ingest.py lines
41-43): row takes username and session_content by required key access
and the title by row.get, which reads only the key named title. -/
def readRow (row : CsvRow) : Except IngestError SourceRecord :=
  match lookupField row "username" with
  | none => .error (.keyError "username")
  | some u =>
    match lookupField row "session_content" with
    | none => .error (.keyError "session_content")
    | some c => .ok ⟨u, c, lookupField row "title"⟩

/-- Outcome of an ingestion run: the durable database state, the number
of records inserted, and the propagated error if the run halted.  The
database component survives a failure because each insert commits
independently. -/
structure IngestResult where
  db : DB
  count : Nat
  err : Option IngestError
  deriving Repr, DecidableEq

/-- The inner flush loop of ingest_csv: embed and insert each batched
record in order, halting at the first embedding or insert failure. -/
def flushBatch (embed : String → Except ProviderError (List ℚ))
    (db : DB) (count : Nat) : List SourceRecord → IngestResult
  | [] => ⟨db, count, none⟩
  | r :: rest =>
    match embed r.content with
    | .error e => ⟨db, count, some (.provider e)⟩
    | .ok v =>
      match insertConversation db r.username r.content v r.title with
      | .error e => ⟨db, count, some (.store e)⟩
      | .ok (db2, _) => flushBatch embed db2 (count + 1) rest

/-- The reading loop of ingest_csv: read rows one at a time, buffer the
parsed records, flush a batch whenever the buffer reaches batchSize, and
flush the trailing partial batch after the last row. -/
def ingestLoop (embed : String → Except ProviderError (List ℚ))
    (batchSize : Nat) :
    List CsvRow → DB → Nat → List SourceRecord → IngestResult
  | [], db, count, batch => flushBatch embed db count batch
  | row :: rest, db, count, batch =>
    match readRow row with
    | .error e => ⟨db, count, some e⟩
    | .ok r =>
      if batchSize ≤ (batch ++ [r]).length then
        match flushBatch embed db count (batch ++ [r]) with
        | ⟨db2, count2, none⟩ => ingestLoop embed batchSize rest db2 count2 []
        | fb => fb
      else ingestLoop embed batchSize rest db count (batch ++ [r])

/-- ingest_csv (db/ingest.py lines 29-67): ensure the schema, then read,
batch, embed and insert every record of the source. -/
def ingestCsv (embed : String → Except ProviderError (List ℚ))
    (rows : List CsvRow) (batchSize : Nat) (db : DB) : IngestResult :=
  ingestLoop embed batchSize rows (createSchema db) 0 []

/-- Parse every CSV row by the ingest field extraction, failing at the
first malformed row. -/
def parseRows : List CsvRow → Except IngestError (List SourceRecord)
  | [] => .ok []
  | row :: rest =>
    match readRow row with
    | .error e => .error e
    | .ok r =>
      match parseRows rest with
      | .error e => .error e
      | .ok rs => .ok (r :: rs)

/-- Embed every record content in order, failing at the first provider
failure. -/
def embedAll (embed : String → Except ProviderError (List ℚ)) :
    List SourceRecord → Except ProviderError (List (List ℚ))
  | [] => .ok []
  | r :: rest =>
    match embed r.content with
    | .error e => .error e
    | .ok v =>
      match embedAll embed rest with
      | .error e => .error e
      | .ok vs => .ok (v :: vs)

/-- The conversations produced by inserting the given records with the
given embeddings starting at a given serial id. -/
def mkConvs (startId : Nat) :
    List SourceRecord → List (List ℚ) → List Conversation
  | r :: rs, v :: vs =>
    ⟨startId, r.username, r.content, r.title, v⟩ :: mkConvs (startId + 1) rs vs
  | _, _ => []

/-- The discrete metric over rational vectors: a concrete executable
stand-in for an engine distance metric, used by witnesses and
counterexamples.  Its identity value is 0 and it is nonnegative. -/
def distIdW : List ℚ → List ℚ → ℚ := fun q w => if w = q then 0 else 1

/-- A concrete 768-dimensional zero vector used by witnesses. -/
def vW : List ℚ := List.replicate 768 0

/-- A provider that embeds every text successfully. -/
def embedOkW : String → Except ProviderError (List ℚ) := fun _ => .ok vW

/-- A provider that fails exactly on the content of record 13. -/
def embedW (s : String) : Except ProviderError (List ℚ) :=
  if s == "c13" then .error (.embedFailed "ollama down") else .ok vW

/-- Twenty-five well-formed CSV rows. -/
def rowsW : List CsvRow :=
  (List.range 25).map (fun i =>
    [("username", "user" ++ toString (i + 1)),
     ("session_content", "c" ++ toString (i + 1))])

/-- The parsed records of rowsW. -/
def recsW : List SourceRecord :=
  (List.range 25).map (fun i =>
    ⟨"user" ++ toString (i + 1), "c" ++ toString (i + 1), none⟩)

/-- Records 1 to 12 of recsW. -/
def preW : List SourceRecord := recsW.take 12

/-- Records 14 to 25 of recsW. -/
def postW : List SourceRecord := recsW.drop 13

/-- Record 13 of recsW, whose embedding call fails under embedW. -/
def rW : SourceRecord := ⟨"user13", "c13", none⟩

/-- The embeddings of the first twelve records under embedW. -/
def embsW : List (List ℚ) := List.replicate 12 vW

/-- Three well-formed CSV rows, to exercise a trailing partial batch. -/
def rows3W : List CsvRow :=
  [[("username", "a"), ("session_content", "x")],
   [("username", "b"), ("session_content", "y")],
   [("username", "c"), ("session_content", "z")]]

/-- The parsed records of rows3W. -/
def recs3W : List SourceRecord :=
  [⟨"a", "x", none⟩, ⟨"b", "y", none⟩, ⟨"c", "z", none⟩]

/-- The embeddings of recs3W under embedOkW. -/
def embs3W : List (List ℚ) := List.replicate 3 vW

/-- A CSV row carrying both a title and a session_title field. -/
def rowTW : CsvRow :=
  [("username", "u"), ("session_content", "hi"),
   ("title", "T"), ("session_title", "S")]

/-- A CSV row carrying a session_title field but no title field. -/
def rowSW : CsvRow :=
  [("username", "u"), ("session_content", "hi"), ("session_title", "S")]

/-- The spec example records for hybrid search: A and B match the text
query with ranks 0.8 and 0.5, C does not match but has distance 0.3. -/
def convA : Conversation := ⟨1, "ua", "A", none, [(2 : ℚ) / 10]⟩

/-- Record B of the hybrid-search spec example. -/
def convB : Conversation := ⟨2, "ub", "B", none, [(4 : ℚ) / 10]⟩

/-- Record C of the hybrid-search spec example. -/
def convC : Conversation := ⟨3, "uc", "C", none, [(3 : ℚ) / 10]⟩

/-- A database holding the three spec example records. -/
def dbABC : DB := ⟨true, true, [], [convA, convB, convC], 4⟩

/-- A distance function reading the stored single-component embedding,
standing in for the engine distance in the hybrid example. -/
def distW : List ℚ → List ℚ → ℚ := fun _ e => e.headD 0

/-- Full-text match of the hybrid example: contents A and B match. -/
def tsMW : String → String → Bool := fun c _ => c == "A" || c == "B"

/-- Full-text rank of the hybrid example: A ranks 0.8, B ranks 0.5. -/
def tsRW : String → String → ℚ :=
  fun c _ => if c == "A" then 8 / 10 else if c == "B" then 5 / 10 else 0

/-- The schema-initialized empty database. -/
def dbSchemaW : DB :=
  ⟨true, true, [⟨"idx_conversations_embedding", IndexKind.hnsw⟩], [], 1⟩

/-- A database already holding one record whose embedding equals vW. -/
def dbDupW : DB := ⟨true, true, [], [⟨1, "bob", "old", none, vW⟩], 2⟩

/-- dbDupW after inserting a second record with the same embedding. -/
def dbDup2W : DB :=
  ⟨true, true, [],
   [⟨1, "bob", "old", none, vW⟩, ⟨2, "alice", "new", none, vW⟩], 3⟩

/-- The schema-initialized empty database after inserting one record
with embedding vW. -/
def dbIns1W : DB :=
  ⟨true, true, [⟨"idx_conversations_embedding", IndexKind.hnsw⟩],
   [⟨1, "alice", "hello", none, vW⟩], 2⟩

/-- A database whose table exists and which holds no indexes. -/
def dbTblW : DB := ⟨false, true, [], [], 1⟩

/-- The state reached from ensure_schema followed by create_hnsw_index:
two differently named indexes of the same hnsw kind. -/
def dbTwoHnswW : DB :=
  ⟨true, true,
   [⟨"idx_conversations_embedding", IndexKind.hnsw⟩,
    ⟨"idx_conversations_hnsw", IndexKind.hnsw⟩],
   [], 1⟩

/-- Sequencing of ingestion outcomes: continue from the reached state
when no error occurred, otherwise keep the halted outcome. -/
def IngestResult.andThen (r : IngestResult) (f : DB → Nat → IngestResult) :
    IngestResult :=
  match r.err with
  | none => f r.db r.count
  | some _ => r

lemma createSchema_rows (db : DB) : (createSchema db).rows = db.rows := by
  unfold createSchema createIndexIfNotExists
  split <;> rfl

lemma createSchema_nextId (db : DB) : (createSchema db).nextId = db.nextId := by
  unfold createSchema createIndexIfNotExists
  split <;> rfl

lemma createSchema_tableExists (db : DB) :
    (createSchema db).tableExists = true := by
  unfold createSchema createIndexIfNotExists
  split <;> rfl

lemma flushBatch_append (embed : String → Except ProviderError (List ℚ))
    (l₁ l₂ : List SourceRecord) : ∀ (db : DB) (c : Nat),
    flushBatch embed db c (l₁ ++ l₂) =
      (flushBatch embed db c l₁).andThen
        (fun db2 c2 => flushBatch embed db2 c2 l₂) := by
  induction l₁ with
  | nil =>
    intro db c
    simp [flushBatch, IngestResult.andThen]
  | cons r rest ih =>
    intro db c
    cases h : embed r.content with
    | error e =>
      simp [flushBatch, h, IngestResult.andThen]
    | ok v =>
      cases h2 : insertConversation db r.username r.content v r.title with
      | error e =>
        simp [flushBatch, h, h2, IngestResult.andThen]
      | ok p =>
        obtain ⟨db2, id2⟩ := p
        simp only [List.cons_append, flushBatch, h, h2]
        exact ih db2 (c + 1)

lemma flushBatch_ok (embed : String → Except ProviderError (List ℚ)) :
    ∀ (recs : List SourceRecord) (embs : List (List ℚ)) (db : DB) (c : Nat),
    db.tableExists = true →
    embedAll embed recs = .ok embs →
    (∀ v ∈ embs, v.length = 768) →
    flushBatch embed db c recs =
      ⟨{ db with rows := db.rows ++ mkConvs db.nextId recs embs,
                 nextId := db.nextId + recs.length },
       c + recs.length, none⟩ := by
  intro recs
  induction recs with
  | nil =>
    intro embs db c htable hemb hlen
    simp only [embedAll] at hemb
    cases hemb
    cases db
    simp [flushBatch, mkConvs]
  | cons r rs ih =>
    intro embs db c htable hemb hlen
    simp only [embedAll] at hemb
    cases h : embed r.content with
    | error e => rw [h] at hemb; cases hemb
    | ok v =>
      rw [h] at hemb
      cases h2 : embedAll embed rs with
      | error e => rw [h2] at hemb; cases hemb
      | ok vs =>
        rw [h2] at hemb
        cases hemb
        have hv : v.length = 768 := hlen v (List.mem_cons_self v vs)
        have hvs : ∀ w ∈ vs, w.length = 768 :=
          fun w hw => hlen w (List.mem_cons_of_mem v hw)
        have hins : insertConversation db r.username r.content v r.title =
            .ok ({ db with
                    rows := db.rows ++
                      [⟨db.nextId, r.username, r.content, r.title, v⟩],
                    nextId := db.nextId + 1 }, db.nextId) := by
          unfold insertConversation
          rw [htable]
          simp [hv]
        simp only [flushBatch, h, hins]
        refine (ih vs
          { db with
              rows := db.rows ++
                [⟨db.nextId, r.username, r.content, r.title, v⟩],
              nextId := db.nextId + 1 } (c + 1) htable h2 hvs).trans ?_
        simp [mkConvs, List.append_assoc]
        omega

lemma ingestLoop_parsed (embed : String → Except ProviderError (List ℚ))
    (batchSize : Nat) :
    ∀ (rows : List CsvRow) (recs : List SourceRecord) (db : DB) (c : Nat)
      (batch : List SourceRecord),
    parseRows rows = .ok recs →
    ingestLoop embed batchSize rows db c batch =
      flushBatch embed db c (batch ++ recs) := by
  intro rows
  induction rows with
  | nil =>
    intro recs db c batch h
    simp only [parseRows] at h
    cases h
    simp [ingestLoop]
  | cons row rest ih =>
    intro recs db c batch h
    simp only [parseRows] at h
    cases hr : readRow row with
    | error e => rw [hr] at h; cases h
    | ok r =>
      rw [hr] at h
      cases hp : parseRows rest with
      | error e => rw [hp] at h; cases h
      | ok rs =>
        rw [hp] at h
        cases h
        have hsplit : batch ++ r :: rs = (batch ++ [r]) ++ rs := by
          simp
        by_cases hb : batchSize ≤ (batch ++ [r]).length
        · have hstep : ingestLoop embed batchSize (row :: rest) db c batch =
              (match flushBatch embed db c (batch ++ [r]) with
               | ⟨db2, c2, none⟩ => ingestLoop embed batchSize rest db2 c2 []
               | fb => fb) := by
            simp only [ingestLoop, hr]
            rw [if_pos hb]
          rw [hstep, hsplit, flushBatch_append embed (batch ++ [r]) rs]
          cases hfb : flushBatch embed db c (batch ++ [r]) with
          | mk db2 c2 errv =>
            cases errv with
            | none =>
              simp only [IngestResult.andThen]
              exact ih rs db2 c2 [] hp
            | some e =>
              simp [IngestResult.andThen]
        · have hstep : ingestLoop embed batchSize (row :: rest) db c batch =
              ingestLoop embed batchSize rest db c (batch ++ [r]) := by
            simp only [ingestLoop, hr]
            rw [if_neg hb]
          rw [hstep, ih rs db c (batch ++ [r]) hp, hsplit]

lemma parseRows_length :
    ∀ (rows : List CsvRow) (recs : List SourceRecord),
    parseRows rows = .ok recs → recs.length = rows.length := by
  intro rows
  induction rows with
  | nil =>
    intro recs h
    simp only [parseRows] at h
    cases h
    rfl
  | cons row rest ih =>
    intro recs h
    simp only [parseRows] at h
    cases hr : readRow row with
    | error e => rw [hr] at h; cases h
    | ok r =>
      rw [hr] at h
      cases hp : parseRows rest with
      | error e => rw [hp] at h; cases h
      | ok rs =>
        rw [hp] at h
        cases h
        simp [ih rs hp]

lemma vW_length : vW.length = 768 := by
  unfold vW
  rw [List.length_replicate]

lemma head_of_take {α : Type} {n : Nat} (hn : 1 ≤ n) (l : List α) :
    (l.take n).head? = l.head? := by
  cases l with
  | nil => simp
  | cons a t =>
    cases n with
    | zero => omega
    | succ m => simp

lemma head_of_map {α β : Type} (f : α → β) (l : List α) :
    (l.map f).head? = l.head?.map f := by
  cases l <;> simp

lemma distIdW_nonneg (q w : List ℚ) : 0 ≤ distIdW q w := by
  unfold distIdW
  split
  · exact le_refl 0
  · exact zero_le_one

lemma distIdW_self (q : List ℚ) : distIdW q q = 0 := by
  simp [distIdW]

lemma insertionSort_head_min {α : Type} (key : α → ℚ) (l : List α) (x : α)
    (hx : x ∈ l) (hx0 : key x = 0) (hnn : ∀ y ∈ l, 0 ≤ key y)
    (huq : ∀ y ∈ l, key y = 0 → y = x) :
    (List.insertionSort (keyLe key) l).head? = some x := by
  have hperm := List.perm_insertionSort (keyLe key) l
  have hsort := List.sorted_insertionSort (keyLe key) l
  have hxs : x ∈ List.insertionSort (keyLe key) l :=
    (List.mem_insertionSort (keyLe key)).mpr hx
  cases hs : List.insertionSort (keyLe key) l with
  | nil => rw [hs] at hxs; cases hxs
  | cons y t =>
    rw [hs] at hxs hsort
    have hy_mem : y ∈ List.insertionSort (keyLe key) l := by
      rw [hs]; exact List.mem_cons_self y t
    have hy_l : y ∈ l := hperm.subset hy_mem
    rcases List.mem_cons.mp hxs with rfl | hxt
    · rfl
    · have hle : keyLe key y x := List.rel_of_sorted_cons hsort x hxt
      have h0 : key y = 0 :=
        le_antisymm (hx0 ▸ hle) (hnn y hy_l)
      have hyx := huq y hy_l h0
      rw [hyx]
      rfl

/-- Claim C2: if the embedding call or the insert fails for one record,
ingest propagates that failure to its caller and halts, and exactly the
records strictly before the failing one are persisted.  The failing
record is the one after the prefix pre; the records of pre are persisted
in order with consecutive serial ids and nothing after the failure is
processed. -/
theorem ingest_halt_on_failure
    (embed : String → Except ProviderError (List ℚ))
    (rows : List CsvRow) (batchSize : Nat) (db : DB)
    (recs pre post : List SourceRecord) (r : SourceRecord)
    (embs : List (List ℚ))
    (hparse : parseRows rows = .ok recs)
    (hsplit : recs = pre ++ r :: post)
    (hpre : embedAll embed pre = .ok embs)
    (hlen : ∀ v ∈ embs, v.length = 768)
    (hfail : (∃ e, embed r.content = .error e) ∨
             (∃ v, embed r.content = .ok v ∧ v.length ≠ 768)) :
    ∃ e, ingestCsv embed rows batchSize db =
      ⟨{ createSchema db with
          rows := db.rows ++ mkConvs db.nextId pre embs,
          nextId := db.nextId + pre.length },
       pre.length, some e⟩ := by
  have htable := createSchema_tableExists db
  unfold ingestCsv
  rw [ingestLoop_parsed embed batchSize rows recs (createSchema db) 0 []
    hparse]
  rw [List.nil_append, hsplit, flushBatch_append embed pre (r :: post)]
  rw [flushBatch_ok embed pre embs (createSchema db) 0 htable hpre hlen]
  simp only [IngestResult.andThen, Nat.zero_add]
  rcases hfail with ⟨e, he⟩ | ⟨v, hv, hvlen⟩
  · refine ⟨.provider e, ?_⟩
    simp only [flushBatch, he]
    simp [createSchema_rows, createSchema_nextId]
  · refine ⟨.store (.dimensionMismatch 768 v.length), ?_⟩
    have hins : insertConversation
        { createSchema db with
            rows := (createSchema db).rows ++
              mkConvs (createSchema db).nextId pre embs,
            nextId := (createSchema db).nextId + pre.length }
        r.username r.content v r.title =
        .error (.dimensionMismatch 768 v.length) := by
      unfold insertConversation
      simp [htable, hvlen]
    simp only [flushBatch, hv, hins]
    simp [createSchema_rows, createSchema_nextId]

/-- Claim C2 witness: with 25 records, batch size 10 and the embedding
of record 13 failing, ingest halts with an error and exactly 12 records
are persisted. -/
theorem ingest_halt_on_failure_witness :
    (ingestCsv embedW rowsW 10 DB.empty).count = 12 ∧
    (ingestCsv embedW rowsW 10 DB.empty).err.isSome = true ∧
    (ingestCsv embedW rowsW 10 DB.empty).db.rows.length = 12 := by
  obtain ⟨e, he⟩ := ingest_halt_on_failure embedW rowsW 10 DB.empty
    recsW preW postW rW embsW (by rfl) (by rfl) (by rfl)
    (by
      intro v hv
      unfold embsW at hv
      rw [List.eq_of_mem_replicate hv]
      exact vW_length)
    (Or.inl ⟨.embedFailed "ollama down", rfl⟩)
  refine ⟨?_, ?_, ?_⟩ <;> rw [he] <;> rfl

/-- Claim C7: when every record parses and embeds successfully, ingest
returns a count equal to the number of records read, including the
trailing partial batch, persists exactly those records, and works from
any starting state because the schema is ensured before the first
insert. -/
theorem ingest_success_count
    (embed : String → Except ProviderError (List ℚ))
    (rows : List CsvRow) (batchSize : Nat) (db : DB)
    (recs : List SourceRecord) (embs : List (List ℚ))
    (hparse : parseRows rows = .ok recs)
    (hemb : embedAll embed recs = .ok embs)
    (hlen : ∀ v ∈ embs, v.length = 768) :
    ingestCsv embed rows batchSize db =
      ⟨{ createSchema db with
          rows := db.rows ++ mkConvs db.nextId recs embs,
          nextId := db.nextId + recs.length },
       rows.length, none⟩ := by
  unfold ingestCsv
  rw [ingestLoop_parsed embed batchSize rows recs (createSchema db) 0 []
    hparse]
  rw [List.nil_append]
  rw [flushBatch_ok embed recs embs (createSchema db) 0
    (createSchema_tableExists db) hemb hlen]
  simp [createSchema_rows, createSchema_nextId,
    parseRows_length rows recs hparse]

/-- Claim C7 witness: three records with batch size 2, so the third
record sits in a trailing partial batch; the returned count is 3 and no
error occurs, starting from a database without the table. -/
theorem ingest_success_count_witness :
    (ingestCsv embedOkW rows3W 2 DB.empty).count = 3 ∧
    (ingestCsv embedOkW rows3W 2 DB.empty).err = none := by
  have h := ingest_success_count embedOkW rows3W 2 DB.empty recs3W embs3W
    (by rfl) (by rfl)
    (by
      intro v hv
      unfold embs3W at hv
      rw [List.eq_of_mem_replicate hv]
      exact vW_length)
  rw [h]
  exact ⟨rfl, rfl⟩

/-- Claim C3 (amended): insert fails with a StoreError when the
embedding length differs from the configured dimensionality 768, and on
success it persists exactly one new record and returns its assigned id.
Contrary to the original claim, empty content is not rejected: the
success case applies to every content string, including the empty one,
because the schema only forbids NULL content. -/
theorem insert_validation (db : DB) (u c : String) (t : Option String)
    (emb : List ℚ) (htable : db.tableExists = true) :
    (emb.length ≠ 768 →
      insertConversation db u c emb t =
        .error (.dimensionMismatch 768 emb.length)) ∧
    (emb.length = 768 →
      insertConversation db u c emb t =
        .ok ({ db with rows := db.rows ++ [⟨db.nextId, u, c, t, emb⟩],
                       nextId := db.nextId + 1 }, db.nextId)) := by
  constructor
  · intro hne
    unfold insertConversation
    simp [htable, hne]
  · intro heq
    unfold insertConversation
    simp [htable, heq]

/-- Claim C3 witness: a 767-dimensional embedding is rejected with the
dimension error and a 768-dimensional one is persisted, in the
schema-initialized database. -/
theorem insert_validation_witness :
    insertConversation dbSchemaW "u" "hello" (List.replicate 767 0) none =
      .error (.dimensionMismatch 768 767) ∧
    insertConversation dbSchemaW "u" "hello" vW none =
      .ok ({ dbSchemaW with
              rows := dbSchemaW.rows ++ [⟨1, "u", "hello", none, vW⟩],
              nextId := 2 }, 1) := by
  constructor
  · have h := (insert_validation dbSchemaW "u" "hello" none
      (List.replicate 767 0) rfl).1 (by rw [List.length_replicate]; omega)
    rw [List.length_replicate] at h
    exact h
  · exact (insert_validation dbSchemaW "u" "hello" none vW rfl).2 vW_length

/-- Claim C3 counterexample: the claim requires insert to fail with a
StoreError when content is the empty string, but the code accepts it:
inserting empty content with a valid 768-dimensional embedding succeeds
and persists the record with id 1. -/
theorem insert_empty_content_accepted :
    insertConversation dbSchemaW "u" "" vW none =
      .ok (⟨true, true, [⟨"idx_conversations_embedding", IndexKind.hnsw⟩],
            [⟨1, "u", "", none, vW⟩], 2⟩, 1) := by
  rfl

/-- Claim C8: explain returns a string for every query and every engine
outcome: the joined plan lines on success and a descriptive error string
on failure; being a total function into String, it never propagates an
error to its caller. -/
theorem explain_never_raises
    (run : String → Except StoreError (List String)) (q : String) :
    (∃ plan, run (explainSql q) = .ok plan ∧
      explainQuery run q = String.intercalate "\n" plan) ∨
    (∃ e, run (explainSql q) = .error e ∧
      explainQuery run q =
        "Error: " ++ e.typeName ++ ": " ++ e.message) := by
  cases h : run (explainSql q) with
  | ok plan =>
    refine Or.inl ⟨plan, rfl, ?_⟩
    unfold explainQuery
    rw [h]
  | error e =>
    refine Or.inr ⟨e, rfl, ?_⟩
    unfold explainQuery
    rw [h]

/-- Claim C10: test_connection returns a boolean and never propagates a
failure; it returns true exactly when the pool is obtained and the probe
query succeeds. -/
theorem test_connection_boolean {Pool : Type}
    (getPool : Except ConnError Pool)
    (fetchval : Pool → Except ConnError Int) :
    testConnection getPool fetchval = true ↔
      ∃ p, getPool = .ok p ∧ ∃ v, fetchval p = .ok v := by
  cases getPool with
  | error e =>
    unfold testConnection
    simp
  | ok p =>
    cases h : fetchval p with
    | ok v =>
      constructor
      · intro _
        exact ⟨p, rfl, v, h⟩
      · intro _
        show (match fetchval p with
              | Except.ok _ => true
              | Except.error _ => false) = true
        rw [h]
    | error e =>
      constructor
      · intro habs
        have habs2 : (match fetchval p with
            | Except.ok _ => true
            | Except.error _ => false) = true := habs
        rw [h] at habs2
        cases habs2
      · rintro ⟨p2, hp2, v, hv⟩
        cases hp2
        rw [h] at hv
        cases hv

/-- Claim C9 (amended): ingest reads the required fields username and
session_content and takes the optional title only from a source field
named title, persisting it as the record title (null when that field is
absent); a source field named session_title is ignored, contrary to the
original claim that either name is accepted. -/
theorem ingest_title_source
    (embed : String → Except ProviderError (List ℚ))
    (row : CsvRow) (batchSize : Nat) (db : DB) (u c : String) (v : List ℚ)
    (hu : lookupField row "username" = some u)
    (hc : lookupField row "session_content" = some c)
    (hv : embed c = .ok v) (hlen : v.length = 768) :
    ingestCsv embed [row] batchSize db =
      ⟨{ createSchema db with
          rows := db.rows ++
            [⟨db.nextId, u, c, lookupField row "title", v⟩],
          nextId := db.nextId + 1 },
       1, none⟩ := by
  have hread : readRow row = .ok ⟨u, c, lookupField row "title"⟩ := by
    unfold readRow
    rw [hu, hc]
  have hparse : parseRows [row] = .ok [⟨u, c, lookupField row "title"⟩] := by
    simp only [parseRows, hread]
  have hemb : embedAll embed [⟨u, c, lookupField row "title"⟩] =
      .ok [v] := by
    simp only [embedAll, hv]
  unfold ingestCsv
  rw [ingestLoop_parsed embed batchSize [row] _ (createSchema db) 0 []
    hparse]
  rw [List.nil_append]
  rw [flushBatch_ok embed _ [v] (createSchema db) 0
    (createSchema_tableExists db) hemb
    (by
      intro w hw
      rw [List.mem_singleton] at hw
      subst hw
      exact hlen)]
  simp [mkConvs, createSchema_rows, createSchema_nextId]

/-- Claim C9 witness: a row carrying both a title field with value T and
a session_title field with value S is persisted with title T. -/
theorem ingest_title_source_witness :
    (ingestCsv embedOkW [rowTW] 10 DB.empty).db.rows.map
      (fun r => r.session_title) = [some "T"] := by
  have h := ingest_title_source embedOkW rowTW 10 DB.empty "u" "hi" vW
    rfl rfl rfl vW_length
  rw [h]
  rfl

/-- Claim C9 counterexample: a source row whose only title-like field is
named session_title, with value S: the claim says the record is
persisted with title S, but ingest persists a null title because it
reads only the field named title. -/
theorem session_title_ignored :
    lookupField rowSW "session_title" = some "S" ∧
    (ingestCsv embedOkW [rowSW] 10 DB.empty).db.rows.map
      (fun r => r.session_title) = [none] := by
  constructor
  · rfl
  · rfl

/-- Claim C5 (amended): search_similar answers every nonnegative limit
with a sequence sorted ascending by the metric distance, which is the
same value returned in the distance field, of length at most limit.
Contrary to the original claim, limit = 0 is not rejected as invalid
input: it is answered with the empty sequence (the engine rejects only a
negative limit). -/
theorem search_similar_ordered
    (dist : List ℚ → List ℚ → ℚ) (db : DB) (q : List ℚ) (limit : Int)
    (htable : db.tableExists = true)
    (hdim : ∀ r ∈ db.rows, r.embedding.length = q.length)
    (hlim : 0 ≤ limit) :
    ∃ out, searchSimilar dist db q limit = .ok out ∧
      out.length ≤ limit.toNat ∧
      List.Pairwise (fun a b => a.distance ≤ b.distance) out ∧
      (limit = 0 → out = []) := by
  have hany : db.rows.any
      (fun r => r.embedding.length != q.length) = false := by
    rw [List.any_eq_false]
    intro r hr
    simp [hdim r hr]
  have hres : searchSimilar dist db q limit =
      .ok (((List.insertionSort
              (keyLe (fun r => dist q r.embedding)) db.rows).map
            (toSearchRow dist q)).take limit.toNat) := by
    unfold searchSimilar
    rw [if_neg (by omega), if_neg (by simp [htable]),
      if_neg (by simp [hany])]
  refine ⟨_, hres, List.length_take_le _ _, ?_, ?_⟩
  · have hsorted := List.sorted_insertionSort
      (keyLe (fun r => dist q r.embedding)) db.rows
    have hmap : List.Pairwise (fun a b => a.distance ≤ b.distance)
        ((List.insertionSort
          (keyLe (fun r => dist q r.embedding)) db.rows).map
         (toSearchRow dist q)) := by
      rw [List.pairwise_map]
      exact hsorted
    exact List.Pairwise.sublist (List.take_sublist _ _) hmap
  · intro h0
    rw [h0]
    rfl

/-- Claim C5 witness: the amended statement at a concrete database with
one stored row, the discrete metric distIdW and limit 5. -/
theorem search_similar_ordered_witness :
    ∃ out, searchSimilar distIdW dbDupW vW 5 = .ok out ∧
      out.length ≤ (5 : Int).toNat ∧
      List.Pairwise (fun a b => a.distance ≤ b.distance) out ∧
      ((5 : Int) = 0 → out = []) := by
  refine search_similar_ordered distIdW dbDupW vW 5 rfl ?_ (by omega)
  intro r hr
  rw [show dbDupW.rows = [⟨1, "bob", "old", none, vW⟩] from rfl,
    List.mem_singleton] at hr
  subst hr
  rfl

/-- Claim C5 counterexample: the claim says limit = 0 is rejected as
invalid input rather than answered, but with a stored record present the
call is answered: it returns ok with the empty list instead of an
error. -/
theorem limit_zero_answered :
    searchSimilar distIdW dbDupW vW 0 = .ok [] := by
  rfl

/-- Claim C4 (amended): after inserting a record with embedding v, a
search_similar with that exact vector and limit at least 1 returns in
first position a record at distance equal to the metric identity value
0, and it is the inserted record provided no previously stored record
lies at distance 0 from v.  Without that proviso the original claim
fails: among distance ties the engine gives no order guarantee, and the
model returns the oldest tied record first (see the counterexample). -/
theorem roundtrip_search_first
    (dist : List ℚ → List ℚ → ℚ) (db : DB) (u c : String)
    (t : Option String) (v : List ℚ) (limit : Int) (db2 : DB) (rid : Nat)
    (htable : db.tableExists = true)
    (hlen : v.length = 768)
    (hdim : ∀ r ∈ db.rows, r.embedding.length = 768)
    (hid : dist v v = 0)
    (hnn : ∀ w, 0 ≤ dist v w)
    (huq : ∀ r ∈ db.rows, dist v r.embedding ≠ 0)
    (hlim : 1 ≤ limit)
    (hins : insertConversation db u c v t = .ok (db2, rid)) :
    ∃ out, searchSimilar dist db2 v limit = .ok out ∧
      out.head? = some ⟨rid, u, c, t, 0⟩ := by
  have hins2 : insertConversation db u c v t =
      .ok ({ db with rows := db.rows ++ [⟨db.nextId, u, c, t, v⟩],
                     nextId := db.nextId + 1 }, db.nextId) := by
    unfold insertConversation
    rw [if_neg (by simp [htable]), if_neg (by simp [hlen])]
  rw [hins2] at hins
  have hdb2 : db2 = { db with
      rows := db.rows ++ [⟨db.nextId, u, c, t, v⟩],
      nextId := db.nextId + 1 } := by
    cases hins
    rfl
  have hrid : rid = db.nextId := by
    cases hins
    rfl
  subst hdb2
  subst hrid
  have hany : (db.rows ++ [(⟨db.nextId, u, c, t, v⟩ : Conversation)]).any
      (fun r => r.embedding.length != v.length) = false := by
    rw [List.any_eq_false]
    intro r hr
    rcases List.mem_append.mp hr with hrl | hrc
    · simp [hdim r hrl, hlen]
    · rw [List.mem_singleton] at hrc
      subst hrc
      simp
  have hres : searchSimilar dist
      { db with rows := db.rows ++ [⟨db.nextId, u, c, t, v⟩],
                nextId := db.nextId + 1 } v limit =
      .ok (((List.insertionSort
              (keyLe (fun r => dist v r.embedding))
              (db.rows ++ [(⟨db.nextId, u, c, t, v⟩ : Conversation)])).map
            (toSearchRow dist v)).take limit.toNat) := by
    unfold searchSimilar
    rw [if_neg (by omega), if_neg (by simp [htable]),
      if_neg (by simp [hany])]
  have hhead : (List.insertionSort
      (keyLe (fun r => dist v r.embedding))
      (db.rows ++ [(⟨db.nextId, u, c, t, v⟩ : Conversation)])).head? =
      some (⟨db.nextId, u, c, t, v⟩ : Conversation) := by
    refine insertionSort_head_min (fun r => dist v r.embedding) _
      (⟨db.nextId, u, c, t, v⟩ : Conversation)
      (List.mem_append.mpr (Or.inr (List.mem_singleton.mpr rfl))) hid
      (fun y _ => hnn _) ?_
    intro y hy h0
    rcases List.mem_append.mp hy with hyl | hyc
    · exact absurd h0 (huq y hyl)
    · rw [List.mem_singleton] at hyc
      exact hyc
  refine ⟨_, hres, ?_⟩
  rw [head_of_take (by omega) _, head_of_map, hhead]
  simp [toSearchRow, hid]

/-- Claim C4 witness: inserting a record with embedding vW into the
schema-initialized empty database and searching with vW and limit 1
returns that record first with distance 0, under the discrete metric
distIdW. -/
theorem roundtrip_search_first_witness :
    ∃ out, searchSimilar distIdW dbIns1W vW 1 = .ok out ∧
      out.head? = some ⟨1, "alice", "hello", none, 0⟩ := by
  refine roundtrip_search_first distIdW dbSchemaW "alice" "hello" none vW 1
    dbIns1W 1 rfl vW_length ?_ (distIdW_self vW) (distIdW_nonneg vW) ?_
    (by omega) (by rfl)
  · intro r hr
    exact absurd hr (List.not_mem_nil r)
  · intro r hr
    exact absurd hr (List.not_mem_nil r)

/-- Claim C4 counterexample: the database already stores a record with
embedding vW; inserting a second record with the same embedding and
searching with vW returns the old record (id 1) in first position, not
the record just inserted (id 2), although both are at distance 0: the
original claim that the inserted record comes first fails. -/
theorem roundtrip_duplicate_tie :
    insertConversation dbDupW "alice" "new" vW none = .ok (dbDup2W, 2) ∧
    searchSimilar distIdW dbDup2W vW 2 =
      .ok [⟨1, "bob", "old", none, 0⟩, ⟨2, "alice", "new", none, 0⟩] := by
  constructor
  · rfl
  · rfl

/-- Claim C1: search_hybrid answers with exactly the stored records
satisfying the inclusion rule (full-text match on the content OR vector
distance below 0.5), ordered with primary key text rank descending and
secondary key distance ascending, truncated to at most limit results:
qual is the full qualifying set, a permutation of the filtered rows,
pairwise ordered by the hybrid order, and the answer is its truncation
to limit. -/
theorem hybrid_search_ordering
    (dist : List ℚ → List ℚ → ℚ) (tsMatch : String → String → Bool)
    (tsRank : String → String → ℚ) (db : DB) (q : List ℚ)
    (searchText : String) (limit : Int)
    (htable : db.tableExists = true)
    (hdim : ∀ r ∈ db.rows, r.embedding.length = q.length)
    (hlim : 0 < limit) :
    ∃ qual : List Conversation,
      qual.Perm (db.rows.filter (hybridQualifies dist tsMatch q searchText)) ∧
      List.Pairwise
        (hybridLe (fun r => tsRank r.session_content searchText)
                  (fun r => dist q r.embedding)) qual ∧
      searchCombined dist tsMatch tsRank db q searchText limit =
        .ok ((qual.map (toHybridRow dist tsRank q searchText)).take
          limit.toNat) ∧
      ((qual.map (toHybridRow dist tsRank q searchText)).take
          limit.toNat).length ≤ limit.toNat := by
  have hany : db.rows.any
      (fun r => r.embedding.length != q.length) = false := by
    rw [List.any_eq_false]
    intro r hr
    simp [hdim r hr]
  refine ⟨List.insertionSort
      (hybridLe (fun r => tsRank r.session_content searchText)
                (fun r => dist q r.embedding))
      (db.rows.filter (hybridQualifies dist tsMatch q searchText)),
    List.perm_insertionSort _ _, List.sorted_insertionSort _ _, ?_,
    List.length_take_le _ _⟩
  unfold searchCombined
  rw [if_neg (by omega), if_neg (by simp [htable]),
    if_neg (by simp [hany])]

/-- Claim C1 witness: the spec example with record A (text match, rank
0.8), record B (text match, rank 0.5) and record C (no text match,
distance 0.3), at limit 10; evaluation of this instance returns the
records in the order A, B, C. -/
theorem hybrid_search_ordering_witness :
    ∃ qual : List Conversation,
      qual.Perm (dbABC.rows.filter (hybridQualifies distW tsMW [0] "pg")) ∧
      List.Pairwise
        (hybridLe (fun r => tsRW r.session_content "pg")
                  (fun r => distW [0] r.embedding)) qual ∧
      searchCombined distW tsMW tsRW dbABC [0] "pg" 10 =
        .ok ((qual.map (toHybridRow distW tsRW [0] "pg")).take
          (10 : Int).toNat) ∧
      ((qual.map (toHybridRow distW tsRW [0] "pg")).take
          (10 : Int).toNat).length ≤ (10 : Int).toNat := by
  refine hybrid_search_ordering distW tsMW tsRW dbABC [0] "pg" 10 rfl ?_
    (by omega)
  intro r hr
  rw [show dbABC.rows = [convA, convB, convC] from rfl] at hr
  simp only [List.mem_cons, List.not_mem_nil, or_false] at hr
  rcases hr with rfl | rfl | rfl
  · rfl
  · rfl
  · rfl

/-- ensure_schema is idempotent from every starting state: all three
statements are create-if-absent. -/
lemma createSchema_idem (db : DB) :
    createSchema (createSchema db) = createSchema db := by
  cases db with
  | mk ve te idx rows nid =>
    simp only [createSchema, createIndexIfNotExists]
    by_cases h : idx.any (fun i => i.name == "idx_conversations_embedding")
    · simp [h]
    · simp [h, List.any_append]

/-- Claim C6 (amended): ensure_schema twice in a row is a no-op, and
create_index twice in a row with the same kind (on an existing table)
produces no error, with the second call a no-op on schema state; from a
starting state holding no similarity index and none of the reserved
index names, exactly one index of the requested kind remains.
Deduplication is per index name, not per kind: a state already holding a
differently named index of the same kind ends with two (see the
counterexample). -/
theorem schema_index_idempotent (db : DB)
    (htable : db.tableExists = true)
    (hnames : ∀ i ∈ db.indexes,
      i.name ≠ "idx_conversations_embedding" ∧
      i.name ≠ "idx_conversations_hnsw" ∧
      i.name ≠ "idx_conversations_ivfflat")
    (hh : countKind db.indexes IndexKind.hnsw = 0)
    (hi : countKind db.indexes IndexKind.ivfflat = 0) :
    (createSchema (createSchema db) = createSchema db) ∧
    countKind (createSchema db).indexes IndexKind.hnsw = 1 ∧
    (∃ db1 m1, createHnswIndex db "cosine" = .ok (db1, m1) ∧
      createHnswIndex db1 "cosine" = .ok (db1, m1) ∧
      countKind db1.indexes IndexKind.hnsw = 1) ∧
    (∃ db2 m2, createIvfflatIndex db 10 = .ok (db2, m2) ∧
      createIvfflatIndex db2 10 = .ok (db2, m2) ∧
      countKind db2.indexes IndexKind.ivfflat = 1) := by
  have hanyE : db.indexes.any
      (fun i => i.name == "idx_conversations_embedding") = false := by
    rw [List.any_eq_false]
    intro i hmem
    simpa using (hnames i hmem).1
  have hanyH : db.indexes.any
      (fun i => i.name == "idx_conversations_hnsw") = false := by
    rw [List.any_eq_false]
    intro i hmem
    simpa using (hnames i hmem).2.1
  have hanyI : db.indexes.any
      (fun i => i.name == "idx_conversations_ivfflat") = false := by
    rw [List.any_eq_false]
    intro i hmem
    simpa using (hnames i hmem).2.2
  have hcount : ∀ (k : IndexKind) (idx : SimIndex), idx.kind = k →
      countKind db.indexes k = 0 →
      countKind (db.indexes ++ [idx]) k = 1 := by
    intro k idx hkind h0
    unfold countKind at h0 ⊢
    rw [List.filter_append, List.length_append, h0]
    simp [hkind]
  refine ⟨createSchema_idem db, ?_, ?_, ?_⟩
  · have : (createSchema db).indexes =
        db.indexes ++ [⟨"idx_conversations_embedding", IndexKind.hnsw⟩] := by
      unfold createSchema createIndexIfNotExists
      rw [if_neg (by simp [hanyE])]
    rw [this]
    exact hcount IndexKind.hnsw _ rfl hh
  · refine ⟨{ db with indexes :=
        db.indexes ++ [⟨"idx_conversations_hnsw", IndexKind.hnsw⟩] },
      "HNSW index created with cosine distance", ?_, ?_, ?_⟩
    · unfold createHnswIndex createIndexIfNotExists
      rw [if_neg (by simp [htable]), if_neg (by simp [hanyH])]
      rfl
    · unfold createHnswIndex createIndexIfNotExists
      rw [if_neg (by simp [htable]),
        if_pos (by simp [List.any_append])]
      rfl
    · exact hcount IndexKind.hnsw _ rfl hh
  · refine ⟨{ db with indexes :=
        db.indexes ++ [⟨"idx_conversations_ivfflat", IndexKind.ivfflat⟩] },
      "IVFFlat index created with 10 lists", ?_, ?_, ?_⟩
    · unfold createIvfflatIndex createIndexIfNotExists
      rw [if_neg (by simp [htable]), if_neg (by simp [hanyI])]
      rfl
    · unfold createIvfflatIndex createIndexIfNotExists
      rw [if_neg (by simp [htable]),
        if_pos (by simp [List.any_append])]
      rfl
    · exact hcount IndexKind.ivfflat _ rfl hi

/-- Claim C6 witness: the amended statement at a concrete database whose
table exists and which holds no indexes. -/
theorem schema_index_idempotent_witness :
    (createSchema (createSchema dbTblW) = createSchema dbTblW) ∧
    countKind (createSchema dbTblW).indexes IndexKind.hnsw = 1 ∧
    (∃ db1 m1, createHnswIndex dbTblW "cosine" = .ok (db1, m1) ∧
      createHnswIndex db1 "cosine" = .ok (db1, m1) ∧
      countKind db1.indexes IndexKind.hnsw = 1) ∧
    (∃ db2 m2, createIvfflatIndex dbTblW 10 = .ok (db2, m2) ∧
      createIvfflatIndex db2 10 = .ok (db2, m2) ∧
      countKind db2.indexes IndexKind.ivfflat = 1) := by
  refine schema_index_idempotent dbTblW rfl ?_ rfl rfl
  intro i hmem
  exact absurd hmem (List.not_mem_nil i)

/-- Claim C6 counterexample: from the state reached by ensure_schema on
a fresh database (which already holds the hnsw index named
idx_conversations_embedding), calling create_hnsw_index twice succeeds
and is idempotent, but leaves TWO similarity indexes of kind hnsw, not
exactly one as the claim states for every starting state. -/
theorem index_kind_duplicated :
    createHnswIndex dbSchemaW "cosine" =
      .ok (dbTwoHnswW, "HNSW index created with cosine distance") ∧
    createHnswIndex dbTwoHnswW "cosine" =
      .ok (dbTwoHnswW, "HNSW index created with cosine distance") ∧
    countKind dbTwoHnswW.indexes IndexKind.hnsw = 2 := by
  refine ⟨rfl, rfl, rfl⟩

end VectordbLearn
